import Mathlib

/-!
Verification of the multi-agent workflow orchestrator of
backend/app/agents/orchestrator.py (Agentic Clinical Control Tower).

The embedding follows the source file closely:
  - AgentType, WorkflowStatus, AgentState mirror the enums and the dataclass.
  - MonitorAgent.run, RetrievalAgent.run, PlanningAgent.run, GuardrailAgent.run,
    NotifierAgent.run mirror the five agent methods; external collaborators
    (forecaster + risk models, RAG engine, LLM + JSON parse, evaluation service)
    are abstracted into an Env record supplying their observable results, as the
    design treats them as external collaborators called through narrow interfaces.
  - Stages and runWorkflowGeneric mirror AgentOrchestrator.run_workflow; a stage
    that raises a Python exception is modelled as Except carrying the error text
    together with the state as mutated up to the point of the raise (the Python
    code mutates the state object in place).  The persistence call
    _save_workflow_to_db is modelled by recording, in RunResult.persisted, each
    state value passed to it, in order.
  - approve_action / reject_action operate on the active_workflows registry,
    modelled as an association list.
Datetime-valued fields (created_at, generated_at, timestamps, delivery_time) are
omitted: no verified property depends on wall-clock values.  Record field types
for RiskEvent / ActionCard / ProposedAction / CitedSource follow their use sites
in orchestrator.py (the pydantic declarations live in backend/app/models/agents.py).
Python floats are modelled as rationals.
-/

namespace ACCT

/-- Types of agents in the workflow (class AgentType). -/
inductive AgentType
  | monitor
  | retrieval
  | planning
  | guardrail
  | notifier
  deriving Repr, DecidableEq

/-- Workflow execution status (class WorkflowStatus). -/
inductive WorkflowStatus
  | pending
  | running
  | awaiting_approval
  | approved
  | rejected
  | completed
  | failed
  deriving Repr, DecidableEq

/-- A cited source attached to an action card (class CitedSource). -/
structure CitedSource where
  source_id : String
  source_title : String
  relevance_score : Rat
  deriving Repr, DecidableEq

/-- A detected risk event (class RiskEvent); fields as constructed in
MonitorAgent.run and monitor_agent.py. -/
structure RiskEvent where
  event_id : String
  event_type : String
  severity : String
  metric_name : String
  current_value : Rat
  threshold_value : Rat
  unit : String
  affected_units : List String := []
  related_patient_ids : List String := []
  description : String := ""
  deriving Repr, DecidableEq

/-- One proposed action inside an action card (class ProposedAction). -/
structure ProposedAction where
  action_type : String
  target_patients : List String
  description : String
  rationale : String
  steps : List String
  deriving Repr, DecidableEq

/-- The planner output card (class ActionCard); generated_at omitted. -/
structure ActionCard where
  card_id : String
  title : String
  summary : String
  urgency : String
  status : String
  proposed_actions : List ProposedAction
  cited_sources : List CitedSource
  deriving Repr, DecidableEq

/-- The forecast_data dict set by MonitorAgent.run. -/
structure ForecastData where
  events_detected : Nat
  primary_event : String
  severity : String
  deriving Repr, DecidableEq

/-- One element of the retrieved_sources list: a source dict returned by the RAG
engine, read in PlanningAgent.run via src.get with defaults. -/
structure SourceDict where
  doc_id : Option String := none
  title : Option String := none
  score : Option Rat := none
  deriving Repr, DecidableEq

/-- The final_output dict; one constructor per dict shape assigned in the code:
message (no risk events), error (collaborator failure / no action to notify),
failedOut (validation exhausted), notification (notifier success). -/
inductive FinalOutput
  | messageOut (msg : String)
  | errorOut (err : String)
  | failedOut (err : String) (errors : List String)
  | notification (role : String) (formatted_message : String) (action_card : ActionCard)
  deriving Repr, DecidableEq

/-- One entry of state.agent_history (the dict appended by each agent run);
timestamps omitted. -/
inductive HistoryEntry
  | monitorStep (events_found : Nat)
  | retrievalStep (query : String) (sources_found : Nat) (has_sufficient_context : Bool)
  | planningStep (iteration : Nat) (action_type : String) (llm_used : String)
  | guardrailStep (passed : Bool) (errors : List String)
  | notifierStep (target_role : String)
  deriving Repr, DecidableEq

/-- The agent that produced a history entry. -/
def HistoryEntry.tag : HistoryEntry → AgentType
  | .monitorStep _ => .monitor
  | .retrievalStep _ _ _ => .retrieval
  | .planningStep _ _ _ => .planning
  | .guardrailStep _ _ => .guardrail
  | .notifierStep _ => .notifier

/-- Shared state passed between agents (dataclass AgentState); created_at
omitted.  Defaults are the dataclass defaults. -/
structure AgentState where
  workflow_id : String
  status : WorkflowStatus := .pending
  current_agent : Option AgentType := none
  iteration : Nat := 0
  max_iterations : Nat := 3
  risk_event : Option RiskEvent := none
  forecast_data : Option ForecastData := none
  retrieved_context : Option String := none
  retrieved_sources : Option (List SourceDict) := none
  proposed_action : Option ActionCard := none
  validation_passed : Bool := false
  validation_errors : List String := []
  final_output : Option FinalOutput := none
  agent_history : List HistoryEntry := []
  deriving Repr, DecidableEq

/-- A Python exception escaping a stage: the error text together with the state
as mutated up to the raise (agents mutate the state object in place). -/
abbrev PyErr := String × AgentState

/-- Number of history entries produced by a given agent. -/
def countStage (t : AgentType) (h : List HistoryEntry) : Nat :=
  h.countP (fun e => decide (e.tag = t))

/-- A raw step entry from the parsed LLM JSON: a string, or a dict whose text is
extracted via get with fallbacks (PlanningAgent.run step sanitizing). -/
inductive RawStep
  | strVal (s : String)
  | objVal (description step text : Option String) (stringified : String)
  deriving Repr, DecidableEq

/-- s.get with the fallback chain description / step / text / str(s). -/
def cleanStep : RawStep → String
  | .strVal s => s
  | .objVal d st t r => d.getD (st.getD (t.getD r))

/-- The raw steps value from the parsed JSON: a list, or some other value that
is stringified whole. -/
inductive RawSteps
  | listVal (l : List RawStep)
  | otherVal (stringified : String)
  deriving Repr, DecidableEq

/-- The step sanitizing loop of PlanningAgent.run. -/
def cleanSteps : RawSteps → List String
  | .listVal l => l.map cleanStep
  | .otherVal s => [s]

/-- The parsed LLM response dict (action_data in PlanningAgent.run): each key
may be absent, in which case action_data.get supplies the default. -/
structure ActionData where
  action_type : Option String := none
  title : Option String := none
  description : Option String := none
  urgency : Option String := none
  steps : Option RawSteps := none
  affected_patients : Option (List String) := none
  rationale : Option String := none

/-- Fault-injection points: the external-collaborator calls that can raise and
are not locally caught (forecaster / replay engine inside MonitorAgent.run, the
RAG engine inside RetrievalAgent.run, and the two eval_service.log_metric calls
inside run_workflow).  The LLM call and the JSON parse are locally wrapped with
fallbacks and never raise; _log_audit_event and _save_workflow_to_db swallow
their own exceptions. -/
inductive FaultPoint
  | monitorF
  | retrievalF
  | evalRagF
  | evalSuccessF
  deriving Repr, DecidableEq

/-- Observable results of the external collaborators consumed by one run:
detected risk events (capacity + patient checks, before demo injection), the
demo event uuid, the RAG result, the per-iteration parsed LLM output and card
ids, and at most one injected collaborator exception. -/
structure Env where
  detected : List RiskEvent
  demoUuid : String
  retrContext : String
  retrSources : List SourceDict
  retrSufficient : Bool
  gen : Nat → ActionData
  cardId : Nat → String
  fault : Option (FaultPoint × String) := none

/-- The hard-coded demo event injected by MonitorAgent.run when no real events
are found (DEMO MODE branch, orchestrator.py lines 196-209). -/
def demoRiskEvent (uuid : String) : RiskEvent :=
  { event_id := uuid
    event_type := "icu_capacity_warning"
    severity := "high"
    metric_name := "icu_occupancy"
    current_value := (177 : Rat) / 2
    threshold_value := 85
    unit := "%"
    affected_units := ["ICU-A", "ICU-B"]
    related_patient_ids := ["P-10026255"]
    description := "ICU occupancy approaching critical threshold." }

/-- The demo event injected by MonitorAgent.run_full_scan in monitor_agent.py. -/
def demoRiskEventScan (uuid : String) : RiskEvent :=
  { event_id := uuid
    event_type := "icu_capacity_warning"
    severity := "high"
    metric_name := "icu_occupancy"
    current_value := (177 : Rat) / 2
    threshold_value := 85
    unit := "%"
    affected_units := ["ICU-A", "ICU-B"]
    related_patient_ids := ["P-10026255", "P-10027602"]
    description := "ICU occupancy approaching critical threshold. Capacity planning required." }

/-- The events list of MonitorAgent.run after the DEMO MODE injection. -/
def monitorEvents (env : Env) : List RiskEvent :=
  if env.detected.isEmpty then [demoRiskEvent env.demoUuid] else env.detected

/-- MonitorAgent.run of orchestrator.py: detect events (abstracted into
env.detected), inject the demo event when none were found, select the first
event, record forecast_data and a history entry.  The forecaster / replay
engine calls are not locally guarded, so a collaborator exception propagates. -/
def MonitorAgent.run (env : Env) (s0 : AgentState) : Except PyErr AgentState :=
  let s := { s0 with current_agent := some AgentType.monitor }
  match env.fault with
  | some (FaultPoint.monitorF, m) => .error (m, s)
  | _ =>
    let events := monitorEvents env
    let s1 :=
      match events with
      | [] => s
      | e0 :: _ =>
        { s with risk_event := some e0
                 forecast_data := some { events_detected := events.length
                                         primary_event := e0.event_type
                                         severity := e0.severity } }
    .ok { s1 with agent_history := s1.agent_history ++ [HistoryEntry.monitorStep events.length] }

/-- MonitorAgent.run_full_scan of monitor_agent.py: concatenated capacity and
patient events (abstracted into detected), with the same demo injection. -/
def run_full_scan (detected : List RiskEvent) (demoUuid : String) : List RiskEvent :=
  if detected.isEmpty then [demoRiskEventScan demoUuid] else detected

/-- The RAG query built by RetrievalAgent.run.  The numeric formatting of
current_value is approximated by the rational toString. -/
def buildQuery (ev : RiskEvent) : String :=
  "What is the protocol for " ++ ev.event_type ++ "? " ++
    (if ev.metric_name = "" then ""
     else "Current " ++ ev.metric_name ++ ": " ++ toString ev.current_value ++ ev.unit)

/-- RetrievalAgent.run: with no risk event it sets a placeholder context and
returns early (no history entry); otherwise it stores the RAG result and
appends a history entry.  The RAG call may raise. -/
def RetrievalAgent.run (env : Env) (s0 : AgentState) : Except PyErr AgentState :=
  let s := { s0 with current_agent := some AgentType.retrieval }
  match s.risk_event with
  | none => .ok { s with retrieved_context := some "No risk event to retrieve context for." }
  | some ev =>
    match env.fault with
    | some (FaultPoint.retrievalF, m) => .error (m, s)
    | _ =>
      .ok { s with
              retrieved_context := some env.retrContext
              retrieved_sources := some env.retrSources
              agent_history := s.agent_history ++
                [HistoryEntry.retrievalStep (buildQuery ev) env.retrSources.length env.retrSufficient] }

/-- CitedSource built from a source dict (PlanningAgent.run). -/
def mkCited (src : SourceDict) : CitedSource :=
  { source_id := src.doc_id.getD "unknown"
    source_title := src.title.getD "Unknown Source"
    relevance_score := src.score.getD ((1 : Rat) / 2) }

/-- Default steps when the parsed JSON lacks a steps key. -/
def defaultRawSteps : RawSteps :=
  .listVal [.strVal "Review situation", .strVal "Take appropriate action"]

/-- PlanningAgent.run: increments the iteration counter, builds the proposed
action and action card from the parsed LLM output (env.gen, indexed by the
pre-increment iteration value) with the source defaults, and appends a planning
history entry.  The LLM call and the JSON parse are wrapped in local fallbacks,
so this stage never raises. -/
def PlanningAgent.run (env : Env) (s : AgentState) : AgentState :=
  let n := s.iteration
  let adata := env.gen n
  let sources := (s.retrieved_sources.getD []).map mkCited
  let cleaned := cleanSteps (adata.steps.getD defaultRawSteps)
  let proposed : ProposedAction :=
    { action_type := adata.action_type.getD "alert"
      target_patients := adata.affected_patients.getD []
      description := adata.description.getD "Action required"
      rationale := adata.rationale.getD "Based on risk assessment"
      steps := cleaned }
  let card : ActionCard :=
    { card_id := env.cardId n
      title := adata.title.getD "Risk Response Action"
      summary := adata.description.getD "Action required"
      urgency := adata.urgency.getD "medium"
      status := "pending"
      proposed_actions := [proposed]
      cited_sources := sources }
  { s with current_agent := some AgentType.planning
           iteration := n + 1
           proposed_action := some card
           agent_history := s.agent_history ++
             [HistoryEntry.planningStep (n + 1) proposed.action_type "llama3.2:1b"] }

/-- Rule 1 of GuardrailAgent.run: missing proposed actions or empty rationale. -/
def rule1Violation (a : ActionCard) : Bool :=
  match a.proposed_actions with
  | [] => true
  | pa :: _ => pa.rationale == ""

/-- Rule 2: critical-severity event with urgency below critical/high. -/
def rule2Violation (re : Option RiskEvent) (a : ActionCard) : Bool :=
  match re with
  | some ev => ev.severity == "critical" && !(a.urgency == "critical" || a.urgency == "high")
  | none => false

/-- Rule 3: fewer than two steps on the first proposed action. -/
def rule3Violation (pa0 : ProposedAction) : Bool :=
  decide (pa0.steps.length < 2)

/-- Rule 4: critical urgency with no cited sources. -/
def rule4Violation (a : ActionCard) : Bool :=
  a.urgency == "critical" && a.cited_sources.isEmpty

/-- The violation list collected by GuardrailAgent.run in source order, for a
card whose proposed_actions list is non-empty with first element pa0. -/
def guardrailViolations (re : Option RiskEvent) (a : ActionCard) (pa0 : ProposedAction) : List String :=
  (if rule1Violation a then ["Missing rationale for action"] else []) ++
  (if rule2Violation re a then ["Urgency does not match critical severity"] else []) ++
  (if rule3Violation pa0 then ["Insufficient action steps (need at least 2)"] else []) ++
  (if rule4Violation a then ["Critical actions require cited sources"] else [])

/-- GuardrailAgent.run: resets validation_errors, early-returns when no card is
present, otherwise evaluates the four rules.  Rule 3 indexes
proposed_actions[0] unconditionally, so a card with an empty proposed_actions
list raises IndexError after rules 1 and 2 have appended their violations; the
raise is modelled as an Except error carrying the partially mutated state. -/
def GuardrailAgent.run (s : AgentState) : Except PyErr AgentState :=
  match s.proposed_action with
  | none =>
    .ok { s with current_agent := some AgentType.guardrail
                 validation_errors := ["No action card to validate"]
                 validation_passed := false }
  | some action =>
    match action.proposed_actions with
    | [] =>
      .error ("list index out of range",
        { s with current_agent := some AgentType.guardrail
                 validation_errors :=
                   (if rule1Violation action then ["Missing rationale for action"] else []) ++
                   (if rule2Violation s.risk_event action then ["Urgency does not match critical severity"] else []) })
    | pa0 :: _ =>
      let errs := guardrailViolations s.risk_event action pa0
      let passed := errs.isEmpty
      let newStatus :=
        if !passed && decide (s.iteration < s.max_iterations) then WorkflowStatus.pending
        else if passed then WorkflowStatus.awaiting_approval
        else WorkflowStatus.failed
      .ok { s with current_agent := some AgentType.guardrail
                   validation_errors := errs
                   validation_passed := passed
                   status := newStatus
                   agent_history := s.agent_history ++ [HistoryEntry.guardrailStep passed errs] }

/-- NotifierAgent._format_for_physician. -/
def formatPhysician (a : ActionCard) : String :=
  let header := ["🏥 CLINICAL ADVISORY: " ++ a.title,
                 "Urgency: " ++ a.urgency.toUpper,
                 "",
                 "Summary: " ++ a.summary,
                 "",
                 "Recommended Actions:"]
  let rows := (a.proposed_actions.enum.map (fun p =>
      ["  " ++ toString (p.1 + 1) ++ ". " ++ p.2.description,
       "     Rationale: " ++ p.2.rationale])).flatten
  String.intercalate "\n" (header ++ rows)

/-- NotifierAgent._format_for_nurse. -/
def formatNurse (a : ActionCard) : String :=
  let header := ["📋 ACTION REQUIRED: " ++ a.title,
                 "Priority: " ++ a.urgency.toUpper,
                 "",
                 "Task List:"]
  let rows := (a.proposed_actions.map (fun pa =>
      pa.steps.map (fun st => "  ☐ " ++ st) ++
      (if pa.target_patients.isEmpty then []
       else ["\n  Patients: " ++ String.intercalate ", " pa.target_patients]))).flatten
  String.intercalate "\n" (header ++ rows)

/-- NotifierAgent._format_for_admin. -/
def formatAdmin (a : ActionCard) : String :=
  let header := ["📊 OPERATIONAL ALERT: " ++ a.title,
                 "Impact Level: " ++ a.urgency.toUpper,
                 "",
                 "Summary: " ++ a.summary,
                 "",
                 "Resource Implications:"]
  let rows := a.proposed_actions.map (fun pa => "  - " ++ pa.action_type ++ ": " ++ pa.description)
  String.intercalate "\n" (header ++ rows)

/-- NotifierAgent._format_generic. -/
def formatGeneric (a : ActionCard) : String :=
  a.title ++ "\n\n" ++ a.summary

/-- NotifierAgent.run: with no proposed action it records an error output and
returns early (status and history untouched); otherwise physician, nurse and
admin get their dedicated format and every other role, patient included, falls
to the generic format; status is set to completed and a history entry appended.
The run method never consults ROLE_TEMPLATES and has no unsupported-role
branch. -/
def NotifierAgent.run (target_role : String) (s0 : AgentState) : AgentState :=
  let s := { s0 with current_agent := some AgentType.notifier }
  match s.proposed_action with
  | none => { s with final_output := some (FinalOutput.errorOut "No action to notify about") }
  | some action =>
    let content :=
      if target_role == "physician" then formatPhysician action
      else if target_role == "nurse" then formatNurse action
      else if target_role == "admin" then formatAdmin action
      else formatGeneric action
    { s with final_output := some (FinalOutput.notification target_role content action)
             status := WorkflowStatus.completed
             agent_history := s.agent_history ++ [HistoryEntry.notifierStep target_role] }

/-- The collaborators called by AgentOrchestrator.run_workflow: the five agent
stages plus the two eval_service.log_metric calls made directly by
run_workflow (their numeric payload does not affect the workflow state, only a
raised exception is observable). -/
structure Stages where
  monitor : AgentState → Except PyErr AgentState
  retrieval : AgentState → Except PyErr AgentState
  planning : AgentState → Except PyErr AgentState
  guardrail : AgentState → Except PyErr AgentState
  notifier : String → AgentState → Except PyErr AgentState
  evalRag : AgentState → Except String Unit
  evalSuccess : AgentState → Except String Unit

/-- The planning/guardrail retry loop of run_workflow (lines 649-663): while
iteration < max_iterations, run planning then guardrail, breaking as soon as
validation passes.  The Python while loop terminates because PlanningAgent.run
increments the iteration counter by one per pass; the embedding makes the bound
explicit with a fuel argument, and run_workflow supplies
max_iterations - iteration units of fuel, which is exact for any planning stage
that increments the counter once per call. -/
def planGuardLoop (st : Stages) : Nat → AgentState → Except PyErr AgentState
  | 0, s => .ok s
  | Nat.succ fuel, s =>
    if s.iteration < s.max_iterations then
      match st.planning s with
      | .error e => .error e
      | .ok s1 =>
        match st.guardrail s1 with
        | .error e => .error e
        | .ok s2 => if s2.validation_passed then .ok s2 else planGuardLoop st fuel s2
    else .ok s

/-- Outcome of the try block of run_workflow: early distinguishes the
no-risk-event return at line 635, which leaves the function without reaching
the persistence call. -/
inductive BodyResult
  | early (s : AgentState)
  | normal (s : AgentState)

/-- The body of the try block of run_workflow (lines 625-680). -/
def tryBody (st : Stages) (role : String) (s0 : AgentState) : Except PyErr BodyResult :=
  match st.monitor s0 with
  | .error e => .error e
  | .ok s1 =>
    match s1.risk_event with
    | none =>
      .ok (.early { s1 with status := WorkflowStatus.completed
                            final_output := some (FinalOutput.messageOut "No risk events detected") })
    | some _ =>
      match st.retrieval s1 with
      | .error e => .error e
      | .ok s2 =>
        match st.evalRag s2 with
        | .error m => .error (m, s2)
        | .ok _ =>
          match planGuardLoop st (s2.max_iterations - s2.iteration) s2 with
          | .error e => .error e
          | .ok s3 =>
            let after : Except PyErr AgentState :=
              if s3.validation_passed then st.notifier role s3
              else .ok { s3 with
                           status := WorkflowStatus.failed
                           final_output := some (FinalOutput.failedOut
                             "Validation failed after max iterations" s3.validation_errors) }
            match after with
            | .error e => .error e
            | .ok s4 =>
              match st.evalSuccess s4 with
              | .error m => .error (m, s4)
              | .ok _ => .ok (.normal s4)

/-- The value returned by run_workflow together with the sequence of states
passed to _save_workflow_to_db. -/
structure RunResult where
  final : AgentState
  persisted : List AgentState
  deriving Repr, DecidableEq

/-- AgentState(workflow_id=workflow_id): the dataclass constructed at the top
of run_workflow, all other fields defaulted. -/
def initState (wid : String) : AgentState :=
  { workflow_id := wid }

/-- AgentOrchestrator.run_workflow: initialize the state at running, execute
the try body, catch any exception by forcing failed status and recording the
error text, and persist the final state — except on the early no-risk-event
return, which leaves the function before the persistence call. -/
def runWorkflowGeneric (st : Stages) (wid role : String) : RunResult :=
  let s0 := { initState wid with status := WorkflowStatus.running }
  match tryBody st role s0 with
  | .ok (.early s) => { final := s, persisted := [] }
  | .ok (.normal s) => { final := s, persisted := [s] }
  | .error (m, s) =>
    let f := { s with status := WorkflowStatus.failed
                      final_output := some (FinalOutput.errorOut m) }
    { final := f, persisted := [f] }

/-- The concrete stage functions of the orchestrator: the embedded agents plus
the fault-injected eval_service calls. -/
def concreteStages (env : Env) : Stages :=
  { monitor := MonitorAgent.run env
    retrieval := RetrievalAgent.run env
    planning := fun s => .ok (PlanningAgent.run env s)
    guardrail := GuardrailAgent.run
    notifier := fun role s => .ok (NotifierAgent.run role s)
    evalRag := fun _ =>
      match env.fault with
      | some (FaultPoint.evalRagF, m) => .error m
      | _ => .ok ()
    evalSuccess := fun _ =>
      match env.fault with
      | some (FaultPoint.evalSuccessF, m) => .error m
      | _ => .ok () }

/-- run_workflow with the embedded agents. -/
def runConcrete (env : Env) (wid role : String) : RunResult :=
  runWorkflowGeneric (concreteStages env) wid role

/-- The active_workflows registry: workflow id to state. -/
abbrev Registry := List (String × AgentState)

/-- self.active_workflows.get(workflow_id). -/
def findWorkflow : Registry → String → Option AgentState
  | [], _ => none
  | (k, v) :: t, wid => if k = wid then some v else findWorkflow t wid

/-- In-place mutation of the registered state object, modelled as a functional
update of the first entry with the given id. -/
def setWorkflow : Registry → String → AgentState → Registry
  | [], _, _ => []
  | (k, v) :: t, wid, s => if k = wid then (k, s) :: t else (k, v) :: setWorkflow t wid s

/-- AgentOrchestrator.approve_action: succeeds only when the workflow exists
and its status is exactly awaiting_approval. -/
def approve_action (reg : Registry) (wid : String) : Bool × Registry :=
  match findWorkflow reg wid with
  | some s =>
    if s.status = WorkflowStatus.awaiting_approval then
      (true, setWorkflow reg wid { s with status := WorkflowStatus.approved })
    else (false, reg)
  | none => (false, reg)

/-- AgentOrchestrator.reject_action: same precondition; also appends the
formatted rejection reason to validation_errors. -/
def reject_action (reg : Registry) (wid : String) (reason : String) : Bool × Registry :=
  match findWorkflow reg wid with
  | some s =>
    if s.status = WorkflowStatus.awaiting_approval then
      (true, setWorkflow reg wid
        { s with status := WorkflowStatus.rejected
                 validation_errors := s.validation_errors ++ ["Rejected: " ++ reason] })
    else (false, reg)
  | none => (false, reg)

/-- Whether a stage call returned normally (no Python exception). -/
def exceptOk {ε α : Type} : Except ε α → Bool
  | .ok _ => true
  | .error _ => false

/- ### Concrete fixtures used by witnesses and counterexamples -/

/-- A critical-severity fixture event. -/
def critEvent : RiskEvent :=
  { event_id := "E-crit", event_type := "icu_capacity_critical", severity := "critical"
    metric_name := "icu_occupancy", current_value := 97, threshold_value := 95, unit := "%" }

/-- A high-severity fixture event. -/
def highEvent : RiskEvent :=
  { event_id := "E-high", event_type := "icu_capacity_warning", severity := "high"
    metric_name := "icu_occupancy", current_value := 90, threshold_value := 85, unit := "%" }

/-- A proposed action that satisfies every guardrail rule. -/
def c5PA : ProposedAction :=
  { action_type := "transfer", target_patients := [], description := "Review step-down eligibility"
    rationale := "Based on SOP", steps := ["Review ICU patients", "Prepare step-down beds"] }

def c5Card : ActionCard :=
  { card_id := "AC-5", title := "ICU Capacity Management", summary := "Review transfers"
    urgency := "high", status := "pending", proposed_actions := [c5PA], cited_sources := [] }

def c5State : AgentState :=
  { workflow_id := "w5", risk_event := some critEvent, proposed_action := some c5Card }

/-- The guardrail output on c5State. -/
def c5Result : AgentState :=
  { c5State with current_agent := some AgentType.guardrail
                 validation_errors := []
                 validation_passed := true
                 status := WorkflowStatus.awaiting_approval
                 agent_history := [HistoryEntry.guardrailStep true []] }

/-- A proposed action violating rules 1, 2 and 3. -/
def viol6PA : ProposedAction :=
  { action_type := "alert", target_patients := [], description := "Something"
    rationale := "", steps := ["only one step"] }

def viol6Card : ActionCard :=
  { card_id := "AC-6", title := "Alert", summary := "Alert"
    urgency := "medium", status := "pending", proposed_actions := [viol6PA], cited_sources := [] }

def viol6State : AgentState :=
  { workflow_id := "w6v", risk_event := some critEvent, proposed_action := some viol6Card }

/-- The guardrail output on viol6State. -/
def viol6Result : AgentState :=
  { viol6State with
      current_agent := some AgentType.guardrail
      validation_errors := ["Missing rationale for action",
                            "Urgency does not match critical severity",
                            "Insufficient action steps (need at least 2)"]
      validation_passed := false
      status := WorkflowStatus.pending
      agent_history := [HistoryEntry.guardrailStep false
        ["Missing rationale for action",
         "Urgency does not match critical severity",
         "Insufficient action steps (need at least 2)"]] }

/-- An action card with an empty proposed_actions list. -/
def emptyCard : ActionCard :=
  { card_id := "AC-0", title := "Empty", summary := "Empty"
    urgency := "medium", status := "pending", proposed_actions := [], cited_sources := [] }

def c6EmptyState : AgentState :=
  { workflow_id := "w6", risk_event := some highEvent, proposed_action := some emptyCard }

/-- The partially mutated state carried by the IndexError raised on
c6EmptyState: rule 1 fired before rule 3 indexed the empty list. -/
def c6EmptyPartial : AgentState :=
  { c6EmptyState with current_agent := some AgentType.guardrail
                      validation_errors := ["Missing rationale for action"] }

def c8PA : ProposedAction :=
  { action_type := "alert", target_patients := [], description := "Check"
    rationale := "Because", steps := ["one", "two"] }

def c8Card : ActionCard :=
  { card_id := "AC-8", title := "Test Card", summary := "Test summary"
    urgency := "high", status := "pending", proposed_actions := [c8PA], cited_sources := [] }

def c8State : AgentState :=
  { workflow_id := "w8", proposed_action := some c8Card }

/-- A workflow awaiting approval, and one already completed. -/
def awaitingState : AgentState :=
  { workflow_id := "wa", status := WorkflowStatus.awaiting_approval }

def doneState : AgentState :=
  { workflow_id := "wd", status := WorkflowStatus.completed }

def demoReg : Registry := [("wa", awaitingState), ("wd", doneState)]

/-- A parsed LLM output that satisfies every guardrail rule. -/
def demoActionData : ActionData :=
  { action_type := some "transfer"
    title := some "ICU Capacity Management"
    description := some "Review patients for step-down eligibility"
    urgency := some "high"
    steps := some (.listVal [.strVal "Review ICU patients", .strVal "Prepare step-down beds"])
    affected_patients := some []
    rationale := some "Based on ICU Capacity Management SOP" }

/-- A fault-free collaborator environment whose plan passes validation. -/
def demoEnv : Env :=
  { detected := []
    demoUuid := "uuid-demo"
    retrContext := "ICU Capacity SOP content"
    retrSources := []
    retrSufficient := true
    gen := fun _ => demoActionData
    cardId := fun _ => "AC-demo"
    fault := none }

/-- Trivial stage functions that leave the state untouched; their monitor
leaves risk_event at none, exercising the no-risk-event early return. -/
def idStages : Stages :=
  { monitor := fun s => .ok s
    retrieval := fun s => .ok s
    planning := fun s => .ok s
    guardrail := fun s => .ok s
    notifier := fun _ s => .ok s
    evalRag := fun _ => .ok ()
    evalSuccess := fun _ => .ok () }

/-- Stage functions whose monitor raises, exercising the top-level catch. -/
def failStages : Stages :=
  { idStages with monitor := fun s => .error ("collaborator down", s) }

/-- The risk event carried by a normally returned state, if any. -/
def okRiskEvent : Except PyErr AgentState → Option RiskEvent
  | .ok s => s.risk_event
  | .error _ => none

/-- Run invariant: the iteration bound holds and the planning and guardrail
history-entry counts both equal the iteration counter. -/
def midInv (s : AgentState) : Prop :=
  s.max_iterations = 3 ∧ s.iteration ≤ 3 ∧
  countStage .planning s.agent_history = s.iteration ∧
  countStage .guardrail s.agent_history = s.iteration

/- ### Helper lemmas on the guardrail stage -/

lemma guardrail_ok (s : AgentState) (a : ActionCard) (pa0 : ProposedAction)
    (rest : List ProposedAction)
    (hpa : s.proposed_action = some a) (hne : a.proposed_actions = pa0 :: rest) :
    GuardrailAgent.run s = .ok
      { s with current_agent := some AgentType.guardrail
               validation_errors := guardrailViolations s.risk_event a pa0
               validation_passed := (guardrailViolations s.risk_event a pa0).isEmpty
               status :=
                 if !(guardrailViolations s.risk_event a pa0).isEmpty
                      && decide (s.iteration < s.max_iterations) then WorkflowStatus.pending
                 else if (guardrailViolations s.risk_event a pa0).isEmpty then
                   WorkflowStatus.awaiting_approval
                 else WorkflowStatus.failed
               agent_history := s.agent_history ++
                 [HistoryEntry.guardrailStep (guardrailViolations s.risk_event a pa0).isEmpty
                   (guardrailViolations s.risk_event a pa0)] } := by
  unfold GuardrailAgent.run
  rw [hpa]
  simp only [hne]

lemma guardrailViolations_eq_props (e : RiskEvent) (a : ActionCard) (pa0 : ProposedAction)
    (rest : List ProposedAction) (hne : a.proposed_actions = pa0 :: rest) :
    guardrailViolations (some e) a pa0 =
      (if pa0.rationale = "" then ["Missing rationale for action"] else []) ++
      (if e.severity = "critical" ∧ a.urgency ≠ "critical" ∧ a.urgency ≠ "high"
        then ["Urgency does not match critical severity"] else []) ++
      (if pa0.steps.length < 2 then ["Insufficient action steps (need at least 2)"] else []) ++
      (if a.urgency = "critical" ∧ a.cited_sources = []
        then ["Critical actions require cited sources"] else []) := by
  simp only [guardrailViolations, rule1Violation, rule2Violation, rule3Violation, rule4Violation,
    hne, Bool.and_eq_true, beq_iff_eq, Bool.not_eq_true', Bool.or_eq_false_iff,
    beq_eq_false_iff_ne, decide_eq_true_eq, List.isEmpty_iff, ne_eq, List.append_assoc]

lemma planning_fields (env : Env) (s : AgentState) :
    (PlanningAgent.run env s).iteration = s.iteration + 1 ∧
    (PlanningAgent.run env s).max_iterations = s.max_iterations ∧
    (PlanningAgent.run env s).status = s.status ∧
    (PlanningAgent.run env s).validation_passed = s.validation_passed ∧
    (PlanningAgent.run env s).final_output = s.final_output ∧
    (PlanningAgent.run env s).risk_event = s.risk_event ∧
    (PlanningAgent.run env s).agent_history = s.agent_history ++
      [HistoryEntry.planningStep (s.iteration + 1)
        ((env.gen s.iteration).action_type.getD "alert") "llama3.2:1b"] :=
  ⟨rfl, rfl, rfl, rfl, rfl, rfl, rfl⟩

lemma planning_card (env : Env) (s : AgentState) :
    ∃ a, (PlanningAgent.run env s).proposed_action = some a ∧ a.proposed_actions ≠ [] :=
  ⟨_, rfl, by simp [PlanningAgent.run]⟩

lemma countStage_append (t : AgentType) (h1 h2 : List HistoryEntry) :
    countStage t (h1 ++ h2) = countStage t h1 + countStage t h2 :=
  List.countP_append _ _ _

lemma countStage_singleton (t : AgentType) (e : HistoryEntry) :
    countStage t [e] = if e.tag = t then 1 else 0 := by
  simp [countStage, List.countP_cons, List.countP_nil]

lemma guardrail_ok_fields (s : AgentState) (a : ActionCard) (pa0 : ProposedAction)
    (rest : List ProposedAction)
    (hpa : s.proposed_action = some a) (hact : a.proposed_actions = pa0 :: rest) :
    ∃ s2, GuardrailAgent.run s = .ok s2 ∧
      s2.iteration = s.iteration ∧
      s2.max_iterations = s.max_iterations ∧
      s2.proposed_action = s.proposed_action ∧
      s2.final_output = s.final_output ∧
      s2.agent_history = s.agent_history ++
        [HistoryEntry.guardrailStep s2.validation_passed s2.validation_errors] ∧
      s2.validation_passed = (guardrailViolations s.risk_event a pa0).isEmpty ∧
      s2.validation_errors = guardrailViolations s.risk_event a pa0 :=
  ⟨_, guardrail_ok s a pa0 rest hpa hact, rfl, rfl, rfl, rfl, rfl, rfl, rfl⟩

/-- One full traversal of the planning/guardrail retry loop with the concrete
stages: the loop returns normally, preserves the iteration bound and keeps the
planning and guardrail history-entry counts equal to the iteration counter. -/
lemma loop_spec (env : Env) : ∀ (fuel : Nat) (s : AgentState),
    s.iteration + fuel = s.max_iterations →
    countStage .planning s.agent_history = s.iteration →
    countStage .guardrail s.agent_history = s.iteration →
    (s.validation_passed = true → ∃ a, s.proposed_action = some a ∧ a.proposed_actions ≠ []) →
    ∃ s3, planGuardLoop (concreteStages env) fuel s = .ok s3 ∧
      s3.max_iterations = s.max_iterations ∧
      s3.iteration ≤ s.max_iterations ∧
      countStage .planning s3.agent_history = s3.iteration ∧
      countStage .guardrail s3.agent_history = s3.iteration ∧
      (s3.validation_passed = true →
        ∃ a, s3.proposed_action = some a ∧ a.proposed_actions ≠ []) := by
  intro fuel
  induction fuel with
  | zero =>
    intro s hfuel hcp hcg hvp
    refine ⟨s, rfl, rfl, ?_, hcp, hcg, hvp⟩
    omega
  | succ fuel ih =>
    intro s hfuel hcp hcg hvp
    have hlt : s.iteration < s.max_iterations := by omega
    obtain ⟨a, hpa, hane⟩ := planning_card env s
    obtain ⟨hit, hmax, hst, hvpp, hfo, hrev, hhist⟩ := planning_fields env s
    set s1 := PlanningAgent.run env s with hs1
    cases hact : a.proposed_actions with
    | nil => exact absurd hact hane
    | cons pa0 rest =>
      obtain ⟨s2, hgr, h2it, h2max, h2pa, h2fo, h2hist, h2vp, h2ve⟩ :=
        guardrail_ok_fields s1 a pa0 rest hpa hact
      have hstep : planGuardLoop (concreteStages env) (fuel + 1) s =
          if s2.validation_passed then .ok s2
          else planGuardLoop (concreteStages env) fuel s2 := by
        simp only [planGuardLoop, concreteStages, if_pos hlt, ← hs1, hgr]
      have h2it' : s2.iteration = s.iteration + 1 := by rw [h2it, hit]
      have h2max' : s2.max_iterations = s.max_iterations := by rw [h2max, hmax]
      have hcp2 : countStage .planning s2.agent_history = s2.iteration := by
        rw [h2hist, hhist, countStage_append, countStage_append, hcp, h2it']
        simp [countStage_singleton, HistoryEntry.tag]
      have hcg2 : countStage .guardrail s2.agent_history = s2.iteration := by
        rw [h2hist, hhist, countStage_append, countStage_append, hcg, h2it']
        simp [countStage_singleton, HistoryEntry.tag]
      have hvp2 : ∃ b, s2.proposed_action = some b ∧ b.proposed_actions ≠ [] := by
        refine ⟨a, ?_, ?_⟩
        · rw [h2pa, hpa]
        · rw [hact]
          exact List.cons_ne_nil _ _
      by_cases hpass : s2.validation_passed = true
      · refine ⟨s2, ?_, h2max', ?_, hcp2, hcg2, fun _ => hvp2⟩
        · rw [hstep, if_pos hpass]
        · omega
      · obtain ⟨s3, hloop, h3max, h3it, h3cp, h3cg, h3vp⟩ :=
          ih s2 (by omega) hcp2 hcg2 (fun _ => hvp2)
        refine ⟨s3, ?_, ?_, ?_, h3cp, h3cg, h3vp⟩
        · rw [hstep, if_neg hpass]
          exact hloop
        · rw [h3max, h2max']
        · rw [h2max'] at h3it
          exact h3it

lemma monitorEvents_cons (env : Env) :
    ∃ e0 tail, monitorEvents env = e0 :: tail := by
  unfold monitorEvents
  cases hd : env.detected with
  | nil => exact ⟨demoRiskEvent env.demoUuid, [], by simp [hd]⟩
  | cons a t => exact ⟨a, t, by simp [hd]⟩

lemma monitor_concrete (env : Env) (s : AgentState)
    (hf : ∀ m, env.fault ≠ some (FaultPoint.monitorF, m)) :
    ∃ e0 tail, monitorEvents env = e0 :: tail ∧
      MonitorAgent.run env s = .ok
        { s with current_agent := some AgentType.monitor
                 risk_event := some e0
                 forecast_data := some { events_detected := (monitorEvents env).length
                                         primary_event := e0.event_type
                                         severity := e0.severity }
                 agent_history := s.agent_history ++
                   [HistoryEntry.monitorStep (monitorEvents env).length] } := by
  obtain ⟨e0, tail, hev⟩ := monitorEvents_cons env
  refine ⟨e0, tail, hev, ?_⟩
  unfold MonitorAgent.run
  rcases hfa : env.fault with _ | ⟨fp, m⟩
  · simp [hev]
  · cases fp
    case monitorF => exact absurd hfa (hf m)
    all_goals simp [hev]

lemma retrieval_concrete (env : Env) (s : AgentState) (ev : RiskEvent)
    (hre : s.risk_event = some ev)
    (hf : ∀ m, env.fault ≠ some (FaultPoint.retrievalF, m)) :
    RetrievalAgent.run env s = .ok
      { s with current_agent := some AgentType.retrieval
               retrieved_context := some env.retrContext
               retrieved_sources := some env.retrSources
               agent_history := s.agent_history ++
                 [HistoryEntry.retrievalStep (buildQuery ev) env.retrSources.length
                   env.retrSufficient] } := by
  unfold RetrievalAgent.run
  rcases hfa : env.fault with _ | ⟨fp, m⟩
  · simp [hre]
  · cases fp
    case retrievalF => exact absurd hfa (hf m)
    all_goals simp [hre]

lemma monitor_concrete_fields (env : Env) (s : AgentState)
    (hf : ∀ m, env.fault ≠ some (FaultPoint.monitorF, m)) :
    ∃ s1 e0, MonitorAgent.run env s = .ok s1 ∧
      s1.risk_event = some e0 ∧
      s1.iteration = s.iteration ∧
      s1.max_iterations = s.max_iterations ∧
      s1.status = s.status ∧
      s1.validation_passed = s.validation_passed ∧
      s1.proposed_action = s.proposed_action ∧
      s1.final_output = s.final_output ∧
      s1.agent_history = s.agent_history ++
        [HistoryEntry.monitorStep (monitorEvents env).length] := by
  obtain ⟨e0, tail, hev, hrun⟩ := monitor_concrete env s hf
  exact ⟨_, e0, hrun, rfl, rfl, rfl, rfl, rfl, rfl, rfl, rfl⟩

lemma retrieval_concrete_fields (env : Env) (s : AgentState) (ev : RiskEvent)
    (hre : s.risk_event = some ev)
    (hf : ∀ m, env.fault ≠ some (FaultPoint.retrievalF, m)) :
    ∃ s2, RetrievalAgent.run env s = .ok s2 ∧
      s2.iteration = s.iteration ∧
      s2.max_iterations = s.max_iterations ∧
      s2.status = s.status ∧
      s2.validation_passed = s.validation_passed ∧
      s2.proposed_action = s.proposed_action ∧
      s2.final_output = s.final_output ∧
      s2.risk_event = s.risk_event ∧
      s2.agent_history = s.agent_history ++
        [HistoryEntry.retrievalStep (buildQuery ev) env.retrSources.length
          env.retrSufficient] :=
  ⟨_, retrieval_concrete env s ev hre hf, rfl, rfl, rfl, rfl, rfl, rfl, rfl, rfl⟩

lemma notifier_fields (role : String) (s : AgentState) (a : ActionCard)
    (hpa : s.proposed_action = some a) :
    ∃ s4, NotifierAgent.run role s = s4 ∧
      s4.status = WorkflowStatus.completed ∧
      s4.iteration = s.iteration ∧
      s4.max_iterations = s.max_iterations ∧
      (∃ c, s4.final_output = some (FinalOutput.notification role c a)) ∧
      s4.agent_history = s.agent_history ++ [HistoryEntry.notifierStep role] := by
  unfold NotifierAgent.run
  simp only [hpa]
  exact ⟨_, rfl, rfl, rfl, rfl, ⟨_, rfl⟩, rfl⟩

lemma cs_monitor (env : Env) (s : AgentState) :
    (concreteStages env).monitor s = MonitorAgent.run env s := rfl

lemma cs_retrieval (env : Env) (s : AgentState) :
    (concreteStages env).retrieval s = RetrievalAgent.run env s := rfl

lemma cs_notifier (env : Env) (role : String) (s : AgentState) :
    (concreteStages env).notifier role s = .ok (NotifierAgent.run role s) := rfl

lemma cs_evalRag (env : Env) (s : AgentState) :
    (concreteStages env).evalRag s =
      (match env.fault with
       | some (FaultPoint.evalRagF, m) => .error m
       | _ => .ok ()) := rfl

lemma cs_evalSuccess (env : Env) (s : AgentState) :
    (concreteStages env).evalSuccess s =
      (match env.fault with
       | some (FaultPoint.evalSuccessF, m) => .error m
       | _ => .ok ()) := rfl

/-- Case analysis of the try body of run_workflow with the concrete stages:
it either raises (and the carried state satisfies the run invariant) or
returns normally with a terminal status, never taking the no-risk-event early
return, and its final output is never the no-risk-events message. -/
lemma tryBody_concrete_cases (env : Env) (wid role : String) :
    (∃ m s, tryBody (concreteStages env) role
        { initState wid with status := WorkflowStatus.running } = .error (m, s) ∧ midInv s) ∨
    (∃ s, tryBody (concreteStages env) role
        { initState wid with status := WorkflowStatus.running } = .ok (.normal s) ∧ midInv s ∧
      (s.status = WorkflowStatus.completed ∨ s.status = WorkflowStatus.failed) ∧
      ∀ m, s.final_output ≠ some (FinalOutput.messageOut m)) := by
  set s0 : AgentState := { initState wid with status := WorkflowStatus.running } with hs0
  have hs0hist : s0.agent_history = [] := rfl
  rcases hfa : env.fault with _ | ⟨fp, m⟩
  case mk =>
    cases fp
    case monitorF =>
      have hmon : MonitorAgent.run env s0 =
          .error (m, { s0 with current_agent := some AgentType.monitor }) := by
        unfold MonitorAgent.run
        simp [hfa]
      refine Or.inl ⟨m, { s0 with current_agent := some AgentType.monitor }, ?_, rfl,
        Nat.zero_le 3, rfl, rfl⟩
      unfold tryBody
      simp only [cs_monitor, hmon]
    case retrievalF =>
      have hfm : ∀ m', env.fault ≠ some (FaultPoint.monitorF, m') := by simp [hfa]
      obtain ⟨s1, e0, hmon, h1re, h1it, h1max, h1st, h1vp, h1pa, h1fo, h1hist⟩ :=
        monitor_concrete_fields env s0 hfm
      have hret : RetrievalAgent.run env s1 =
          .error (m, { s1 with current_agent := some AgentType.retrieval }) := by
        unfold RetrievalAgent.run
        simp [h1re, hfa]
      refine Or.inl ⟨m, { s1 with current_agent := some AgentType.retrieval }, ?_, ?_, ?_, ?_, ?_⟩
      · unfold tryBody
        simp only [cs_monitor, hmon, h1re, cs_retrieval, hret]
      · show s1.max_iterations = 3
        rw [h1max]; rfl
      · show s1.iteration ≤ 3
        rw [h1it]; exact Nat.zero_le 3
      · show countStage .planning s1.agent_history = s1.iteration
        rw [h1hist, hs0hist, h1it]
        simp [countStage_singleton, HistoryEntry.tag]
        rfl
      · show countStage .guardrail s1.agent_history = s1.iteration
        rw [h1hist, hs0hist, h1it]
        simp [countStage_singleton, HistoryEntry.tag]
        rfl
    case evalRagF =>
      have hfm : ∀ m', env.fault ≠ some (FaultPoint.monitorF, m') := by simp [hfa]
      have hfr : ∀ m', env.fault ≠ some (FaultPoint.retrievalF, m') := by simp [hfa]
      obtain ⟨s1, e0, hmon, h1re, h1it, h1max, h1st, h1vp, h1pa, h1fo, h1hist⟩ :=
        monitor_concrete_fields env s0 hfm
      obtain ⟨s2, hret, h2it, h2max, h2st, h2vp, h2pa, h2fo, h2re, h2hist⟩ :=
        retrieval_concrete_fields env s1 e0 h1re hfr
      have h2hist' : s2.agent_history =
          [HistoryEntry.monitorStep (monitorEvents env).length,
           HistoryEntry.retrievalStep (buildQuery e0) env.retrSources.length
             env.retrSufficient] := by
        rw [h2hist, h1hist, hs0hist]
        rfl
      refine Or.inl ⟨m, s2, ?_, ?_, ?_, ?_, ?_⟩
      · unfold tryBody
        simp only [cs_monitor, hmon, h1re, cs_retrieval, hret, cs_evalRag, hfa]
      · rw [h2max, h1max]; rfl
      · rw [h2it, h1it]; exact Nat.zero_le 3
      · rw [h2hist', h2it, h1it]; rfl
      · rw [h2hist', h2it, h1it]; rfl
    case evalSuccessF =>
      have hfm : ∀ m', env.fault ≠ some (FaultPoint.monitorF, m') := by simp [hfa]
      have hfr : ∀ m', env.fault ≠ some (FaultPoint.retrievalF, m') := by simp [hfa]
      obtain ⟨s1, e0, hmon, h1re, h1it, h1max, h1st, h1vp, h1pa, h1fo, h1hist⟩ :=
        monitor_concrete_fields env s0 hfm
      obtain ⟨s2, hret, h2it, h2max, h2st, h2vp, h2pa, h2fo, h2re, h2hist⟩ :=
        retrieval_concrete_fields env s1 e0 h1re hfr
      have h2it0 : s2.iteration = 0 := by rw [h2it, h1it]; rfl
      have h2max3 : s2.max_iterations = 3 := by rw [h2max, h1max]; rfl
      have h2hist' : s2.agent_history =
          [HistoryEntry.monitorStep (monitorEvents env).length,
           HistoryEntry.retrievalStep (buildQuery e0) env.retrSources.length
             env.retrSufficient] := by
        rw [h2hist, h1hist, hs0hist]
        rfl
      have h2cp : countStage .planning s2.agent_history = s2.iteration := by
        rw [h2hist', h2it0]; rfl
      have h2cg : countStage .guardrail s2.agent_history = s2.iteration := by
        rw [h2hist', h2it0]; rfl
      have h2vp0 : s2.validation_passed = false := by rw [h2vp, h1vp]; rfl
      obtain ⟨s3, hloop, h3max, h3it, h3cp, h3cg, h3vpinv⟩ :=
        loop_spec env (s2.max_iterations - s2.iteration) s2 (by omega) h2cp h2cg
          (by intro h; rw [h2vp0] at h; exact Bool.noConfusion h)
      have h3max3 : s3.max_iterations = 3 := by rw [h3max, h2max3]
      have h3it3 : s3.iteration ≤ 3 := by rw [← h2max3]; exact h3it
      by_cases hpass : s3.validation_passed = true
      · obtain ⟨a3, hpa3, hane3⟩ := h3vpinv hpass
        obtain ⟨s4, hnot, h4st, h4it, h4max, hc4, h4hist⟩ := notifier_fields role s3 a3 hpa3
        refine Or.inl ⟨m, s4, ?_, ?_, ?_, ?_, ?_⟩
        · unfold tryBody
          simp only [cs_monitor, hmon, h1re, cs_retrieval, hret, cs_evalRag, cs_evalSuccess,
            hfa, hloop, hpass, if_true, cs_notifier, hnot]
        · rw [h4max, h3max3]
        · rw [h4it]; exact h3it3
        · rw [h4hist, countStage_append, h3cp, h4it]
          simp [countStage_singleton, HistoryEntry.tag]
        · rw [h4hist, countStage_append, h3cg, h4it]
          simp [countStage_singleton, HistoryEntry.tag]
      · have hp3 : s3.validation_passed = false := Bool.eq_false_iff.mpr hpass
        refine Or.inl ⟨m, { s3 with status := WorkflowStatus.failed, final_output := some (FinalOutput.failedOut "Validation failed after max iterations" s3.validation_errors) }, ?_, ?_, ?_, ?_, ?_⟩
        · unfold tryBody
          simp only [cs_monitor, hmon, h1re, cs_retrieval, hret, cs_evalRag, cs_evalSuccess,
            hfa, hloop, hp3, Bool.false_eq_true, if_false]
        · show s3.max_iterations = 3
          exact h3max3
        · show s3.iteration ≤ 3
          exact h3it3
        · show countStage .planning s3.agent_history = s3.iteration
          exact h3cp
        · show countStage .guardrail s3.agent_history = s3.iteration
          exact h3cg
  case none =>
    have hfm : ∀ m', env.fault ≠ some (FaultPoint.monitorF, m') := by simp [hfa]
    have hfr : ∀ m', env.fault ≠ some (FaultPoint.retrievalF, m') := by simp [hfa]
    obtain ⟨s1, e0, hmon, h1re, h1it, h1max, h1st, h1vp, h1pa, h1fo, h1hist⟩ :=
      monitor_concrete_fields env s0 hfm
    obtain ⟨s2, hret, h2it, h2max, h2st, h2vp, h2pa, h2fo, h2re, h2hist⟩ :=
      retrieval_concrete_fields env s1 e0 h1re hfr
    have h2it0 : s2.iteration = 0 := by rw [h2it, h1it]; rfl
    have h2max3 : s2.max_iterations = 3 := by rw [h2max, h1max]; rfl
    have h2hist' : s2.agent_history =
        [HistoryEntry.monitorStep (monitorEvents env).length,
         HistoryEntry.retrievalStep (buildQuery e0) env.retrSources.length
           env.retrSufficient] := by
      rw [h2hist, h1hist, hs0hist]
      rfl
    have h2cp : countStage .planning s2.agent_history = s2.iteration := by
      rw [h2hist', h2it0]; rfl
    have h2cg : countStage .guardrail s2.agent_history = s2.iteration := by
      rw [h2hist', h2it0]; rfl
    have h2vp0 : s2.validation_passed = false := by rw [h2vp, h1vp]; rfl
    obtain ⟨s3, hloop, h3max, h3it, h3cp, h3cg, h3vpinv⟩ :=
      loop_spec env (s2.max_iterations - s2.iteration) s2 (by omega) h2cp h2cg
        (by intro h; rw [h2vp0] at h; exact Bool.noConfusion h)
    have h3max3 : s3.max_iterations = 3 := by rw [h3max, h2max3]
    have h3it3 : s3.iteration ≤ 3 := by rw [← h2max3]; exact h3it
    by_cases hpass : s3.validation_passed = true
    · obtain ⟨a3, hpa3, hane3⟩ := h3vpinv hpass
      obtain ⟨s4, hnot, h4st, h4it, h4max, hc4, h4hist⟩ := notifier_fields role s3 a3 hpa3
      obtain ⟨c, h4fo⟩ := hc4
      refine Or.inr ⟨s4, ?_, ⟨?_, ?_, ?_, ?_⟩, Or.inl h4st, ?_⟩
      · unfold tryBody
        simp only [cs_monitor, hmon, h1re, cs_retrieval, hret, cs_evalRag, cs_evalSuccess,
          hfa, hloop, hpass, if_true, cs_notifier, hnot]
      · rw [h4max, h3max3]
      · rw [h4it]; exact h3it3
      · rw [h4hist, countStage_append, h3cp, h4it]
        simp [countStage_singleton, HistoryEntry.tag]
      · rw [h4hist, countStage_append, h3cg, h4it]
        simp [countStage_singleton, HistoryEntry.tag]
      · intro mm
        rw [h4fo]
        intro h
        injection h with h'
        exact FinalOutput.noConfusion h'
    · have hp3 : s3.validation_passed = false := Bool.eq_false_iff.mpr hpass
      refine Or.inr ⟨{ s3 with status := WorkflowStatus.failed, final_output := some (FinalOutput.failedOut "Validation failed after max iterations" s3.validation_errors) }, ?_, ⟨h3max3, h3it3, h3cp, h3cg⟩, Or.inr rfl, ?_⟩
      · unfold tryBody
        simp only [cs_monitor, hmon, h1re, cs_retrieval, hret, cs_evalRag, cs_evalSuccess,
          hfa, hloop, hp3, Bool.false_eq_true, if_false]
      · intro mm h
        injection h with h'
        exact FinalOutput.noConfusion h'

/- ### Claim C5 -/

/-- C5: for every card whose proposed_actions list is non-empty, guardrail
validation returns passed = true iff the collected violation list is empty,
and the violation list is exactly the one generated by the four rules (missing
rationale; urgency below critical/high on a critical-severity event; fewer
than two steps; zero cited sources with critical urgency).  Any first proposed
action with fewer than two steps gets the steps-violation and passed = false,
and an action with two non-empty steps, a non-empty rationale and urgency high
against a critical-severity event passes with an empty violation list. -/
theorem guardrail_rules_spec (s : AgentState) (a : ActionCard) (e : RiskEvent)
    (pa0 : ProposedAction) (rest : List ProposedAction) (s' : AgentState)
    (hpa : s.proposed_action = some a) (hre : s.risk_event = some e)
    (hact : a.proposed_actions = pa0 :: rest)
    (hrun : GuardrailAgent.run s = .ok s') :
    (s'.validation_passed = true ↔ s'.validation_errors = []) ∧
    s'.validation_errors =
      ((if pa0.rationale = "" then ["Missing rationale for action"] else []) ++
       (if e.severity = "critical" ∧ a.urgency ≠ "critical" ∧ a.urgency ≠ "high"
         then ["Urgency does not match critical severity"] else []) ++
       (if pa0.steps.length < 2 then ["Insufficient action steps (need at least 2)"] else []) ++
       (if a.urgency = "critical" ∧ a.cited_sources = []
         then ["Critical actions require cited sources"] else [])) ∧
    (pa0.steps.length < 2 →
      "Insufficient action steps (need at least 2)" ∈ s'.validation_errors ∧
        s'.validation_passed = false) ∧
    ((pa0.rationale ≠ "" ∧ pa0.steps.length = 2 ∧ (∀ st ∈ pa0.steps, st ≠ "") ∧
        a.urgency = "high" ∧ e.severity = "critical") →
      s'.validation_passed = true ∧ s'.validation_errors = []) := by
  rw [guardrail_ok s a pa0 rest hpa hact] at hrun
  cases hrun
  have hV := guardrailViolations_eq_props e a pa0 rest hact
  rw [hre]
  refine ⟨?_, ?_, ?_, ?_⟩
  · show (guardrailViolations (some e) a pa0).isEmpty = true ↔
      guardrailViolations (some e) a pa0 = []
    exact List.isEmpty_iff
  · exact hV
  · intro hlt
    constructor
    · show _ ∈ guardrailViolations (some e) a pa0
      rw [hV]
      simp [hlt]
    · show (guardrailViolations (some e) a pa0).isEmpty = false
      rw [hV]
      simp [hlt]
  · rintro ⟨h1, h2, h3, h4, h5⟩
    have hnil : guardrailViolations (some e) a pa0 = [] := by
      rw [hV]
      simp [h1, h2, h4, h5]
    constructor
    · show (guardrailViolations (some e) a pa0).isEmpty = true
      rw [hnil]
      rfl
    · exact hnil

/-- Witness for C5: the passing fixture evaluates as the theorem states. -/
theorem guardrail_rules_spec_witness :
    c5Result.validation_passed = true ∧ c5Result.validation_errors = [] := by
  have h := guardrail_rules_spec c5State c5Card critEvent c5PA [] c5Result rfl rfl rfl rfl
  exact h.2.2.2 ⟨by decide, by decide, by decide, rfl, rfl⟩

/- ### Claim C6 -/

/-- C6 counterexample: on an action card whose proposed_actions list is empty,
guardrail validation raises an IndexError (rule 3 indexes the first element of
the empty list), instead of evaluating totally; rules 1 and 2 had already
appended their violations when the exception was raised. -/
theorem guardrail_empty_actions_raises :
    GuardrailAgent.run c6EmptyState = .error ("list index out of range", c6EmptyPartial) ∧
    exceptOk (GuardrailAgent.run c6EmptyState) = false :=
  ⟨rfl, rfl⟩

/-- C6 amended: for every card whose proposed_actions list is non-empty and
every state (any triggering event), guardrail validation returns normally and
collects the violations of all four rules independently, without
short-circuiting: each violation is present iff its rule condition holds, and
passed is true iff the collected list is empty.  (For an empty
proposed_actions list the code instead raises IndexError, caught only by the
top level of run_workflow.) -/
theorem guardrail_total_collects (s : AgentState) (a : ActionCard)
    (pa0 : ProposedAction) (rest : List ProposedAction)
    (hpa : s.proposed_action = some a) (hact : a.proposed_actions = pa0 :: rest) :
    exceptOk (GuardrailAgent.run s) = true ∧
    ∀ s', GuardrailAgent.run s = .ok s' →
      (("Missing rationale for action" ∈ s'.validation_errors) ↔ pa0.rationale = "") ∧
      (("Urgency does not match critical severity" ∈ s'.validation_errors) ↔
        ∃ e, s.risk_event = some e ∧ e.severity = "critical" ∧
          a.urgency ≠ "critical" ∧ a.urgency ≠ "high") ∧
      (("Insufficient action steps (need at least 2)" ∈ s'.validation_errors) ↔
        pa0.steps.length < 2) ∧
      (("Critical actions require cited sources" ∈ s'.validation_errors) ↔
        (a.urgency = "critical" ∧ a.cited_sources = [])) ∧
      (s'.validation_passed = true ↔ s'.validation_errors = []) := by
  have hok := guardrail_ok s a pa0 rest hpa hact
  constructor
  · rw [hok]
    rfl
  · intro s' hrun
    rw [hok] at hrun
    cases hrun
    cases hre : s.risk_event with
    | none =>
      refine ⟨?_, ?_, ?_, ?_, ?_⟩ <;>
        · show _
          simp only [guardrailViolations, rule1Violation, rule2Violation, rule3Violation,
            rule4Violation, hact, hre, List.mem_append]
          split_ifs <;>
            simp_all [beq_iff_eq, List.isEmpty_iff, decide_eq_true_eq, List.isEmpty_eq_false]
    | some e =>
      refine ⟨?_, ?_, ?_, ?_, ?_⟩ <;>
        · show _
          simp only [guardrailViolations, rule1Violation, rule2Violation, rule3Violation,
            rule4Violation, hact, hre, List.mem_append]
          split_ifs <;>
            simp_all [beq_iff_eq, List.isEmpty_iff, decide_eq_true_eq, List.isEmpty_eq_false]

/-- Witness for C6 amended: the violating fixture evaluates as the theorem
states. -/
theorem guardrail_total_collects_witness :
    exceptOk (GuardrailAgent.run viol6State) = true ∧
    "Missing rationale for action" ∈ viol6Result.validation_errors ∧
    "Insufficient action steps (need at least 2)" ∈ viol6Result.validation_errors ∧
    viol6Result.validation_passed = false := by
  have h := guardrail_total_collects viol6State viol6Card viol6PA [] rfl rfl
  have h2 := h.2 viol6Result rfl
  refine ⟨h.1, h2.1.mpr rfl, h2.2.2.1.mpr (by decide), ?_⟩
  rcases Bool.eq_false_or_eq_true viol6Result.validation_passed with hb | hb
  · exact absurd (h2.2.2.2.2.mp hb) (by decide)
  · exact hb

/- ### Claim C8 -/

/-- C8 counterexample: a target role outside the documented enumeration
(robot) receives the generic default formatting, not an unsupported-role
result — and so does the enumerated role patient, since NotifierAgent.run
special-cases only physician, nurse and admin. -/
theorem notifier_no_unsupported_role_result :
    NotifierAgent.run "robot" c8State =
      { c8State with current_agent := some AgentType.notifier
                     final_output := some (FinalOutput.notification "robot"
                       "Test Card\n\nTest summary" c8Card)
                     status := WorkflowStatus.completed
                     agent_history := [HistoryEntry.notifierStep "robot"] } ∧
    NotifierAgent.run "patient" c8State =
      { c8State with current_agent := some AgentType.notifier
                     final_output := some (FinalOutput.notification "patient"
                       "Test Card\n\nTest summary" c8Card)
                     status := WorkflowStatus.completed
                     agent_history := [HistoryEntry.notifierStep "patient"] } :=
  ⟨rfl, rfl⟩

/-- C8 amended: the notifier formatter special-cases exactly the roles
physician, nurse and admin; every other target role — patient included —
receives the generic formatting (title, blank line, summary), the run is
completed normally, and no unsupported-role result is produced. -/
theorem notifier_role_formatting (s : AgentState) (a : ActionCard) (role : String)
    (hpa : s.proposed_action = some a)
    (hp : role ≠ "physician") (hn : role ≠ "nurse") (ha : role ≠ "admin") :
    NotifierAgent.run role s =
      { s with current_agent := some AgentType.notifier
               final_output := some (FinalOutput.notification role (formatGeneric a) a)
               status := WorkflowStatus.completed
               agent_history := s.agent_history ++ [HistoryEntry.notifierStep role] } := by
  simp [NotifierAgent.run, hpa, hp, hn, ha]

/-- Witness for C8 amended at a concrete unknown role. -/
theorem notifier_role_formatting_witness :
    NotifierAgent.run "charge" c8State =
      { c8State with current_agent := some AgentType.notifier
                     final_output := some (FinalOutput.notification "charge"
                       (formatGeneric c8Card) c8Card)
                     status := WorkflowStatus.completed
                     agent_history := [HistoryEntry.notifierStep "charge"] } :=
  notifier_role_formatting c8State c8Card "charge" rfl (by decide) (by decide) (by decide)

/- ### Registry lemmas and claim C7 -/

lemma findWorkflow_setWorkflow_same (reg : Registry) (wid : String) (s' : AgentState)
    (h : (findWorkflow reg wid).isSome) :
    findWorkflow (setWorkflow reg wid s') wid = some s' := by
  induction reg with
  | nil => simp [findWorkflow] at h
  | cons p t ih =>
    obtain ⟨k, v⟩ := p
    by_cases hk : k = wid
    · simp [findWorkflow, setWorkflow, hk]
    · simp only [findWorkflow, setWorkflow, hk, if_false, if_neg hk] at h ⊢
      exact ih h

lemma findWorkflow_setWorkflow_other (reg : Registry) (wid w : String) (s' : AgentState)
    (hw : w ≠ wid) :
    findWorkflow (setWorkflow reg wid s') w = findWorkflow reg w := by
  induction reg with
  | nil => rfl
  | cons p t ih =>
    obtain ⟨k, v⟩ := p
    by_cases hk : k = wid
    · subst hk
      simp [findWorkflow, setWorkflow, Ne.symm hw]
    · simp [findWorkflow, setWorkflow, hk, ih]

/-- C7: approve_action returns true and moves the workflow to approved iff the
workflow exists with status exactly awaiting_approval; otherwise it returns
false and leaves the registry unchanged.  reject_action has the same
precondition, additionally appends the formatted reason to the
violation/error list, and otherwise returns false with no state change; both
operations are total functions of the registry (they never raise), and a
successful call touches no other workflow. -/
theorem approve_reject_spec (reg : Registry) (wid : String) (reason : String) :
    ((approve_action reg wid).1 = true ↔
      ∃ s, findWorkflow reg wid = some s ∧ s.status = WorkflowStatus.awaiting_approval) ∧
    ((approve_action reg wid).1 = false → (approve_action reg wid).2 = reg) ∧
    (∀ s, findWorkflow reg wid = some s → s.status = WorkflowStatus.awaiting_approval →
      (approve_action reg wid).1 = true ∧
      findWorkflow (approve_action reg wid).2 wid =
        some { s with status := WorkflowStatus.approved } ∧
      ∀ w, w ≠ wid → findWorkflow (approve_action reg wid).2 w = findWorkflow reg w) ∧
    ((reject_action reg wid reason).1 = true ↔
      ∃ s, findWorkflow reg wid = some s ∧ s.status = WorkflowStatus.awaiting_approval) ∧
    ((reject_action reg wid reason).1 = false → (reject_action reg wid reason).2 = reg) ∧
    (∀ s, findWorkflow reg wid = some s → s.status = WorkflowStatus.awaiting_approval →
      (reject_action reg wid reason).1 = true ∧
      findWorkflow (reject_action reg wid reason).2 wid =
        some { s with status := WorkflowStatus.rejected
                      validation_errors := s.validation_errors ++ ["Rejected: " ++ reason] } ∧
      ∀ w, w ≠ wid → findWorkflow (reject_action reg wid reason).2 w = findWorkflow reg w) := by
  cases hf : findWorkflow reg wid with
  | none =>
    have ha : approve_action reg wid = (false, reg) := by
      unfold approve_action; rw [hf]
    have hr : reject_action reg wid reason = (false, reg) := by
      unfold reject_action; rw [hf]
    rw [ha, hr]
    refine ⟨?_, fun _ => rfl, ?_, ?_, fun _ => rfl, ?_⟩
    · simp [hf]
    · intro s hs
      exact Option.noConfusion hs
    · simp [hf]
    · intro s hs
      exact Option.noConfusion hs
  | some s0 =>
    by_cases hst : s0.status = WorkflowStatus.awaiting_approval
    · have ha : approve_action reg wid =
          (true, setWorkflow reg wid { s0 with status := WorkflowStatus.approved }) := by
        unfold approve_action; rw [hf]; simp [hst]
      have hr : reject_action reg wid reason =
          (true, setWorkflow reg wid
            { s0 with status := WorkflowStatus.rejected
                      validation_errors := s0.validation_errors ++ ["Rejected: " ++ reason] }) := by
        unfold reject_action; rw [hf]; simp [hst]
      have hsome : (findWorkflow reg wid).isSome := by rw [hf]; rfl
      rw [ha, hr]
      refine ⟨⟨fun _ => ⟨s0, rfl, hst⟩, fun _ => rfl⟩, fun h => Bool.noConfusion h, ?_,
        ⟨fun _ => ⟨s0, rfl, hst⟩, fun _ => rfl⟩, fun h => Bool.noConfusion h, ?_⟩
      · intro s hs hsa
        injection hs with hs'
        subst hs'
        exact ⟨rfl, findWorkflow_setWorkflow_same reg wid _ hsome,
          fun w hw => findWorkflow_setWorkflow_other reg wid w _ hw⟩
      · intro s hs hsa
        injection hs with hs'
        subst hs'
        exact ⟨rfl, findWorkflow_setWorkflow_same reg wid _ hsome,
          fun w hw => findWorkflow_setWorkflow_other reg wid w _ hw⟩
    · have ha : approve_action reg wid = (false, reg) := by
        unfold approve_action; rw [hf]; simp [hst]
      have hr : reject_action reg wid reason = (false, reg) := by
        unfold reject_action; rw [hf]; simp [hst]
      rw [ha, hr]
      refine ⟨?_, fun _ => rfl, ?_, ?_, fun _ => rfl, ?_⟩
      · constructor
        · intro h
          exact Bool.noConfusion h
        · rintro ⟨s, hs, hsa⟩
          injection hs with hs'
          subst hs'
          exact absurd hsa hst
      · intro s hs hsa
        injection hs with hs'
        subst hs'
        exact absurd hsa hst
      · constructor
        · intro h
          exact Bool.noConfusion h
        · rintro ⟨s, hs, hsa⟩
          injection hs with hs'
          subst hs'
          exact absurd hsa hst
      · intro s hs hsa
        injection hs with hs'
        subst hs'
        exact absurd hsa hst

/-- Witness for C7 on a concrete registry. -/
theorem approve_reject_spec_witness :
    (approve_action demoReg "wa").1 = true ∧
    findWorkflow (approve_action demoReg "wa").2 "wa" =
      some { awaitingState with status := WorkflowStatus.approved } ∧
    (approve_action demoReg "wd").1 = false ∧
    (approve_action demoReg "wd").2 = demoReg ∧
    (reject_action demoReg "wa" "too risky").1 = true ∧
    findWorkflow (reject_action demoReg "wa" "too risky").2 "wa" =
      some { awaitingState with status := WorkflowStatus.rejected
                                validation_errors := ["Rejected: too risky"] } ∧
    (reject_action demoReg "wd" "too risky").1 = false := by
  have h := approve_reject_spec demoReg "wa" "too risky"
  have ha := h.2.2.1 awaitingState rfl rfl
  have hr := h.2.2.2.2.2 awaitingState rfl rfl
  have h2 := approve_reject_spec demoReg "wd" "too risky"
  refine ⟨ha.1, ha.2.1, ?_, ?_, hr.1, hr.2.1, ?_⟩
  · rcases Bool.eq_false_or_eq_true (approve_action demoReg "wd").1 with hb | hb
    · obtain ⟨s, hs, hsa⟩ := h2.1.mp hb
      cases hs
      exact absurd hsa (by decide)
    · exact hb
  · apply h2.2.1
    rcases Bool.eq_false_or_eq_true (approve_action demoReg "wd").1 with hb | hb
    · obtain ⟨s, hs, hsa⟩ := h2.1.mp hb
      cases hs
      exact absurd hsa (by decide)
    · exact hb
  · rcases Bool.eq_false_or_eq_true (reject_action demoReg "wd" "too risky").1 with hb | hb
    · obtain ⟨s, hs, hsa⟩ := h2.2.2.2.1.mp hb
      cases hs
      exact absurd hsa (by decide)
    · exact hb

/- ### Master lemma for the concrete run and claims C1-C4, C9, C10 -/

lemma run_concrete_master (env : Env) (wid role : String) :
    (runConcrete env wid role).persisted = [(runConcrete env wid role).final] ∧
    midInv (runConcrete env wid role).final ∧
    ((runConcrete env wid role).final.status = WorkflowStatus.completed ∨
      (runConcrete env wid role).final.status = WorkflowStatus.failed) ∧
    ∀ m, (runConcrete env wid role).final.final_output ≠
      some (FinalOutput.messageOut m) := by
  rcases tryBody_concrete_cases env wid role with
    ⟨m, s, htb, hmax, hit, hcp, hcg⟩ | ⟨s, htb, hinv, hst, hfo⟩
  · have hrc : runConcrete env wid role =
        { final := { s with status := WorkflowStatus.failed
                            final_output := some (FinalOutput.errorOut m) }
          persisted := [{ s with status := WorkflowStatus.failed
                                 final_output := some (FinalOutput.errorOut m) }] } := by
      simp only [runConcrete, runWorkflowGeneric, htb]
    rw [hrc]
    refine ⟨rfl, ⟨hmax, hit, hcp, hcg⟩, Or.inr rfl, ?_⟩
    intro mm h
    injection h with h'
    exact FinalOutput.noConfusion h'
  · have hrc : runConcrete env wid role = { final := s, persisted := [s] } := by
      simp only [runConcrete, runWorkflowGeneric, htb]
    rw [hrc]
    exact ⟨rfl, hinv, hst, hfo⟩

lemma approve_on_non_awaiting (f : AgentState) (wid : String)
    (h : f.status ≠ WorkflowStatus.awaiting_approval) :
    approve_action [(wid, f)] wid = (false, [(wid, f)]) := by
  have hfind : findWorkflow [(wid, f)] wid = some f := by
    unfold findWorkflow
    rw [if_pos rfl]
  simp only [approve_action, hfind, if_neg h]

lemma reject_on_non_awaiting (f : AgentState) (wid reason : String)
    (h : f.status ≠ WorkflowStatus.awaiting_approval) :
    reject_action [(wid, f)] wid reason = (false, [(wid, f)]) := by
  have hfind : findWorkflow [(wid, f)] wid = some f := by
    unfold findWorkflow
    rw [if_pos rfl]
  simp only [reject_action, hfind, if_neg h]

/- ### Claim C1 -/

/-- C1: the iteration counter starts at 0, PlanningAgent.run increments it by
exactly one per planning attempt, and for every run of run_workflow with the
embedded agents (arbitrary collaborator results, including an injected
collaborator exception) the final iteration counter never exceeds the
configured maximum (3, the default), and the number of planning history
entries equals the number of guardrail-validation history entries and equals
the final iteration counter. -/
theorem iteration_audit_invariant (env : Env) (wid role : String) :
    (initState wid).iteration = 0 ∧
    (∀ s, (PlanningAgent.run env s).iteration = s.iteration + 1) ∧
    (runConcrete env wid role).final.max_iterations = 3 ∧
    (runConcrete env wid role).final.iteration ≤
      (runConcrete env wid role).final.max_iterations ∧
    countStage .planning (runConcrete env wid role).final.agent_history =
      (runConcrete env wid role).final.iteration ∧
    countStage .guardrail (runConcrete env wid role).final.agent_history =
      (runConcrete env wid role).final.iteration := by
  obtain ⟨-, ⟨hmax, hit, hcp, hcg⟩, -, -⟩ := run_concrete_master env wid role
  refine ⟨rfl, fun s => rfl, hmax, ?_, hcp, hcg⟩
  rw [hmax]
  exact hit

/- ### Claim C2 -/

/-- C2: whenever the monitor stage leaves no risk event on the state,
run_workflow completes early: the returned state is the monitor output with
status completed and a final output recording that no risk events were
detected, and no retrieval, planning, validation or notification stage runs —
in particular no planning, guardrail or notifier history entries are added. -/
theorem no_event_early_completion (st : Stages) (wid role : String) (s1 : AgentState)
    (hmon : st.monitor { initState wid with status := WorkflowStatus.running } = .ok s1)
    (hre : s1.risk_event = none) :
    (runWorkflowGeneric st wid role).final =
      { s1 with status := WorkflowStatus.completed
                final_output := some (FinalOutput.messageOut "No risk events detected") } ∧
    (runWorkflowGeneric st wid role).final.agent_history = s1.agent_history ∧
    countStage .planning (runWorkflowGeneric st wid role).final.agent_history =
      countStage .planning s1.agent_history ∧
    countStage .guardrail (runWorkflowGeneric st wid role).final.agent_history =
      countStage .guardrail s1.agent_history ∧
    countStage .notifier (runWorkflowGeneric st wid role).final.agent_history =
      countStage .notifier s1.agent_history := by
  have htb : tryBody st role { initState wid with status := WorkflowStatus.running } =
      .ok (.early { s1 with
        status := WorkflowStatus.completed
        final_output := some (FinalOutput.messageOut "No risk events detected") }) := by
    unfold tryBody
    simp only [hmon, hre]
  have hrc : runWorkflowGeneric st wid role =
      { final := { s1 with
          status := WorkflowStatus.completed
          final_output := some (FinalOutput.messageOut "No risk events detected") }
        persisted := [] } := by
    simp only [runWorkflowGeneric, htb]
  rw [hrc]
  exact ⟨rfl, rfl, rfl, rfl, rfl⟩

/-- Witness for C2 with a monitor that leaves risk_event at none. -/
theorem no_event_early_completion_witness :
    (runWorkflowGeneric idStages "w2" "nurse").final.status = WorkflowStatus.completed ∧
    (runWorkflowGeneric idStages "w2" "nurse").final.final_output =
      some (FinalOutput.messageOut "No risk events detected") := by
  have h := no_event_early_completion idStages "w2" "nurse"
    { initState "w2" with status := WorkflowStatus.running } rfl rfl
  constructor
  · rw [h.1]
  · rw [h.1]

/- ### Claim C3 -/

/-- C3: any exception raised by a stage of the try body of run_workflow is
caught at the top level, forcing status failed and recording the error text in
the final output; and with the embedded agents every run returns a terminal
status (completed or failed), never running. -/
theorem exception_forces_failed :
    (∀ (st : Stages) (wid role m : String) (s : AgentState),
      tryBody st role { initState wid with status := WorkflowStatus.running } =
          .error (m, s) →
      (runWorkflowGeneric st wid role).final =
        { s with status := WorkflowStatus.failed
                 final_output := some (FinalOutput.errorOut m) }) ∧
    (∀ (env : Env) (wid role : String),
      (runConcrete env wid role).final.status = WorkflowStatus.completed ∨
      (runConcrete env wid role).final.status = WorkflowStatus.failed) := by
  constructor
  · intro st wid role m s h
    simp only [runWorkflowGeneric, h]
  · intro env wid role
    obtain ⟨-, -, hst, -⟩ := run_concrete_master env wid role
    exact hst

/-- Witness for C3 with a monitor stage that raises. -/
theorem exception_forces_failed_witness :
    (runWorkflowGeneric failStages "w3" "nurse").final.status = WorkflowStatus.failed ∧
    (runWorkflowGeneric failStages "w3" "nurse").final.final_output =
      some (FinalOutput.errorOut "collaborator down") := by
  have h := exception_forces_failed.1 failStages "w3" "nurse" "collaborator down"
    { initState "w3" with status := WorkflowStatus.running } rfl
  constructor
  · rw [h]
  · rw [h]

/- ### Claim C4 -/

/-- C4 counterexample: a run taking the no-risk-event early return reaches the
terminal status completed but performs no persistence write at all: the early
return at the top of the try block leaves run_workflow before the persistence
call, so not every outcome is persisted exactly once. -/
theorem early_return_skips_persistence :
    (runWorkflowGeneric idStages "w4" "nurse").persisted = [] ∧
    (runWorkflowGeneric idStages "w4" "nurse").final.status = WorkflowStatus.completed :=
  ⟨rfl, rfl⟩

/-- C4 amended: in every run that gets past the monitor stage with a risk
event — which with the embedded agents is every run, under any collaborator
results and any injected collaborator exception — the final state is persisted
exactly once, after the terminal status (completed or failed) is reached; only
the no-risk-event early completion skips the persistence write. -/
theorem persistence_once_after_terminal (env : Env) (wid role : String) :
    (runConcrete env wid role).persisted = [(runConcrete env wid role).final] ∧
    ((runConcrete env wid role).final.status = WorkflowStatus.completed ∨
      (runConcrete env wid role).final.status = WorkflowStatus.failed) := by
  obtain ⟨hp, -, hst, -⟩ := run_concrete_master env wid role
  exact ⟨hp, hst⟩

/- ### Claim C9 -/

/-- C9: with the embedded agents, every run of run_workflow returns a state
whose status is completed or failed — never awaiting_approval, approved or
rejected (the guardrail awaiting_approval status is overwritten by the
notifier) — and consequently approve_action and reject_action on the returned
workflow always return false and leave the registry unchanged. -/
theorem run_terminal_no_approval (env : Env) (wid role reason : String) :
    ((runConcrete env wid role).final.status = WorkflowStatus.completed ∨
      (runConcrete env wid role).final.status = WorkflowStatus.failed) ∧
    (runConcrete env wid role).final.status ≠ WorkflowStatus.awaiting_approval ∧
    approve_action [(wid, (runConcrete env wid role).final)] wid =
      (false, [(wid, (runConcrete env wid role).final)]) ∧
    reject_action [(wid, (runConcrete env wid role).final)] wid reason =
      (false, [(wid, (runConcrete env wid role).final)]) := by
  obtain ⟨-, -, hst, -⟩ := run_concrete_master env wid role
  have hne : (runConcrete env wid role).final.status ≠ WorkflowStatus.awaiting_approval := by
    rcases hst with h | h <;> rw [h] <;> intro hh <;> exact WorkflowStatus.noConfusion hh
  exact ⟨hst, hne, approve_on_non_awaiting _ wid hne, reject_on_non_awaiting _ wid reason hne⟩

/- ### Claim C10 -/

/-- C10: the monitor stage always yields a risk event: when the capacity and
patient checks detect nothing it injects the hard-coded demo ICU-capacity
event (and MonitorAgent.run_full_scan of monitor_agent.py injects likewise),
so after the monitor stage the risk event is non-null and the no-risk-events
early-completion branch of run_workflow is unreachable with the real monitor:
no run ever produces the no-risk-events final output. -/
theorem monitor_always_event :
    (∀ (env : Env) (s : AgentState), (∀ m, env.fault ≠ some (FaultPoint.monitorF, m)) →
      ∃ s1 e0, MonitorAgent.run env s = .ok s1 ∧ s1.risk_event = some e0) ∧
    (∀ (env : Env) (s : AgentState), env.detected = [] →
      (∀ m, env.fault ≠ some (FaultPoint.monitorF, m)) →
      ∃ s1, MonitorAgent.run env s = .ok s1 ∧
        s1.risk_event = some (demoRiskEvent env.demoUuid)) ∧
    (∀ (detected : List RiskEvent) (demoUuid : String),
      1 ≤ (run_full_scan detected demoUuid).length) ∧
    (∀ (env : Env) (wid role m : String),
      (runConcrete env wid role).final.final_output ≠
        some (FinalOutput.messageOut m)) := by
  refine ⟨?_, ?_, ?_, ?_⟩
  · intro env s hf
    obtain ⟨s1, e0, hrun, hre, -, -, -, -, -, -, -⟩ := monitor_concrete_fields env s hf
    exact ⟨s1, e0, hrun, hre⟩
  · intro env s hd hf
    obtain ⟨e0, tail, hev, hrun⟩ := monitor_concrete env s hf
    have hdemo : monitorEvents env = [demoRiskEvent env.demoUuid] := by
      simp [monitorEvents, hd]
    have he0 : e0 = demoRiskEvent env.demoUuid := by
      rw [hdemo] at hev
      injection hev with h1 h2
      exact h1.symm
    exact ⟨_, hrun, by rw [← he0]⟩
  · intro detected demoUuid
    cases detected with
    | nil => simp [run_full_scan]
    | cons a t => simp [run_full_scan]
  · intro env wid role m
    obtain ⟨-, -, -, hfo⟩ := run_concrete_master env wid role
    exact hfo m

/-- Witness for C10: with no detected events and no fault, the monitor output
carries exactly the demo event. -/
theorem monitor_always_event_witness :
    okRiskEvent (MonitorAgent.run demoEnv (initState "w10")) =
      some (demoRiskEvent "uuid-demo") := by
  obtain ⟨s1, hrun, hre⟩ := monitor_always_event.2.1 demoEnv (initState "w10") rfl
    (by intro m h; simp [demoEnv] at h)
  rw [show okRiskEvent (MonitorAgent.run demoEnv (initState "w10")) = s1.risk_event from by
    rw [hrun]; rfl]
  exact hre

end ACCT
